import Mathlib

/-!
Shallow embedding of the vibe-code configuration core: config schema and
merge (src/core/config-manager.ts, src/types/index.ts), mode switching
(src/core/mode-manager.ts), staleness check and start command
(src/commands/start.ts), and semantic version comparison
(src/core/claude-integration.ts).  File-system effects are modelled by
explicit state passing over a store of the two config files and the
derived CLAUDE.md document, with a logical clock providing modification
timestamps.
-/

/-- Mode enum from src/types/index.ts (ModeSchema). -/
inductive Mode where
  | learning
  | guided
  | expert
deriving DecidableEq, Repr

/-- ChecklistType enum from src/types/index.ts (ChecklistTypeSchema). -/
inductive ChecklistType where
  | pre
  | post
  | owasp
  | api
  | full
  | none
deriving DecidableEq, Repr

/-- StandardType enum from src/types/index.ts (StandardTypeSchema). -/
inductive StandardType where
  | typescript
  | api
deriving DecidableEq, Repr

/-- GlobalConfig interface from src/types/index.ts.  Optional TS fields
become Option. -/
structure GlobalConfig where
  defaultMode : Mode
  editor : Option String
  claudeCodePath : Option String
  includeSecurityChecklist : Option ChecklistType
  includeStandards : Option (List StandardType)
deriving DecidableEq, Repr

/-- ProjectConfig interface from src/types/index.ts: every field optional. -/
structure ProjectConfig where
  mode : Option Mode
  projectName : Option String
  template : Option String
  customPrompts : Option (List String)
  includeSecurityChecklist : Option ChecklistType
  includeStandards : Option (List StandardType)
deriving DecidableEq, Repr

/-- The empty TS object used by the spread fallback in switchMode and
updateMode: all fields undefined. -/
def ProjectConfig.empty : ProjectConfig :=
  { mode := Option.none, projectName := Option.none, template := Option.none,
    customPrompts := Option.none, includeSecurityChecklist := Option.none,
    includeStandards := Option.none }

/-- MergedConfig interface from src/types/index.ts: mode, customPrompts,
includeSecurityChecklist and includeStandards are required. -/
structure MergedConfig where
  mode : Mode
  editor : Option String
  claudeCodePath : Option String
  projectName : Option String
  template : Option String
  customPrompts : List String
  includeSecurityChecklist : ChecklistType
  includeStandards : List StandardType
deriving DecidableEq, Repr

/-- DEFAULT_CONFIG constant from src/types/index.ts. -/
def DEFAULT_CONFIG : MergedConfig :=
  { mode := Mode.guided
    editor := Option.none
    claudeCodePath := Option.none
    projectName := Option.none
    template := Option.none
    customPrompts := []
    includeSecurityChecklist := ChecklistType.pre
    includeStandards := [StandardType.typescript] }

/-- Result type from src/types/index.ts: success-with-data or
failure-with-error (errors carry their message). -/
inductive Result (α : Type) where
  | ok (data : α)
  | err (msg : String)
deriving DecidableEq, Repr

/-- Outcome of a call that can either return normally or throw an
exception (used to model Zod schema .parse, which throws on invalid
input). -/
inductive Exc (α : Type) where
  | thrown
  | normal (a : α)
deriving DecidableEq, Repr

/-- mergeConfigs from src/core/config-manager.ts: project overrides
global, missing values fall back to DEFAULT_CONFIG.  The TS optional
chain p?.f ?? x is (project.bind f).getD x, and the three-level chains
use orElse for the middle layer. -/
def mergeConfigs (global : GlobalConfig) (project : Option ProjectConfig) :
    MergedConfig :=
  { mode := (project.bind ProjectConfig.mode).getD global.defaultMode
    editor := global.editor
    claudeCodePath := global.claudeCodePath
    projectName := project.bind ProjectConfig.projectName
    template := project.bind ProjectConfig.template
    customPrompts :=
      (project.bind ProjectConfig.customPrompts).getD DEFAULT_CONFIG.customPrompts
    includeSecurityChecklist :=
      ((project.bind ProjectConfig.includeSecurityChecklist).orElse
        fun _ => global.includeSecurityChecklist).getD
        DEFAULT_CONFIG.includeSecurityChecklist
    includeStandards :=
      ((project.bind ProjectConfig.includeStandards).orElse
        fun _ => global.includeStandards).getD
        DEFAULT_CONFIG.includeStandards }

/-- Claim C1: mergeConfigs resolves each field by precedence: mode is the
project mode when defined else the global defaultMode; the security
checklist and standards are the project value when defined, else the
global value, else the hardcoded defaults pre and the singleton
typescript list; editor and claudeCodePath come from global only;
projectName and template from project only; customPrompts is the project
value when defined else the empty list.  The required fields of the
result are total by construction. -/
theorem mergeConfigs_field_precedence (g : GlobalConfig)
    (p : Option ProjectConfig) :
    (∀ pc m, p = some pc → pc.mode = some m → (mergeConfigs g p).mode = m)
  ∧ ((p.bind ProjectConfig.mode = Option.none) →
      (mergeConfigs g p).mode = g.defaultMode)
  ∧ (mergeConfigs g p).editor = g.editor
  ∧ (mergeConfigs g p).claudeCodePath = g.claudeCodePath
  ∧ (mergeConfigs g p).projectName = p.bind ProjectConfig.projectName
  ∧ (mergeConfigs g p).template = p.bind ProjectConfig.template
  ∧ (∀ pc cp, p = some pc → pc.customPrompts = some cp →
      (mergeConfigs g p).customPrompts = cp)
  ∧ ((p.bind ProjectConfig.customPrompts = Option.none) →
      (mergeConfigs g p).customPrompts = [])
  ∧ (∀ pc c, p = some pc → pc.includeSecurityChecklist = some c →
      (mergeConfigs g p).includeSecurityChecklist = c)
  ∧ ((p.bind ProjectConfig.includeSecurityChecklist = Option.none) →
      ∀ c, g.includeSecurityChecklist = some c →
        (mergeConfigs g p).includeSecurityChecklist = c)
  ∧ ((p.bind ProjectConfig.includeSecurityChecklist = Option.none) →
      g.includeSecurityChecklist = Option.none →
        (mergeConfigs g p).includeSecurityChecklist = ChecklistType.pre)
  ∧ (∀ pc l, p = some pc → pc.includeStandards = some l →
      (mergeConfigs g p).includeStandards = l)
  ∧ ((p.bind ProjectConfig.includeStandards = Option.none) →
      ∀ l, g.includeStandards = some l →
        (mergeConfigs g p).includeStandards = l)
  ∧ ((p.bind ProjectConfig.includeStandards = Option.none) →
      g.includeStandards = Option.none →
        (mergeConfigs g p).includeStandards = [StandardType.typescript]) := by
  refine ⟨?_, ?_, rfl, rfl, rfl, rfl, ?_, ?_, ?_, ?_, ?_, ?_, ?_, ?_⟩
  · rintro pc m rfl hm
    simp [mergeConfigs, hm]
  · intro h
    simp [mergeConfigs, h]
  · rintro pc cp rfl hcp
    simp [mergeConfigs, hcp]
  · intro h
    simp [mergeConfigs, h, DEFAULT_CONFIG]
  · rintro pc c rfl hc
    simp [mergeConfigs, hc, Option.orElse]
  · intro h c hg
    simp [mergeConfigs, h, hg, Option.orElse]
  · intro h hg
    simp [mergeConfigs, h, hg, Option.orElse, DEFAULT_CONFIG]
  · rintro pc l rfl hl
    simp [mergeConfigs, hl, Option.orElse]
  · intro h l hg
    simp [mergeConfigs, h, hg, Option.orElse]
  · intro h hg
    simp [mergeConfigs, h, hg, Option.orElse, DEFAULT_CONFIG]

/-- Witness for C1 at a concrete global and project config. -/
theorem mergeConfigs_field_precedence_witness :
    (mergeConfigs
      { defaultMode := Mode.expert, editor := some "vim",
        claudeCodePath := Option.none,
        includeSecurityChecklist := some ChecklistType.full,
        includeStandards := Option.none }
      (some { ProjectConfig.empty with mode := some Mode.learning })).mode
      = Mode.learning :=
  (mergeConfigs_field_precedence _ _).1 _ Mode.learning rfl rfl

/-- Content of a stored config file: either it fails JSON parse or schema
validation when read, or it holds a validated value. -/
inductive FileContent (α : Type) where
  | corrupt
  | parsed (v : α)
deriving DecidableEq, Repr

/-- File-system state seen by the configuration core: the project config
file (dot-vibe config.json under the project root) with its modification
time, the global config file, and the modification time of the derived
CLAUDE.md document.  A logical clock supplies strictly increasing write
timestamps. -/
structure FS where
  clock : Nat
  projectFile : Option (FileContent ProjectConfig)
  projectMtime : Nat
  globalFile : Option (FileContent GlobalConfig)
  claudeMdMtime : Option Nat
deriving DecidableEq, Repr

/-- isProjectInitialized from src/core/config-manager.ts: true iff the
project config file exists, regardless of content validity. -/
def isProjectInitialized (fs : FS) : Bool :=
  fs.projectFile.isSome

/-- The default GlobalConfig returned by readGlobalConfig when the file
is absent (built from DEFAULT_CONFIG; editor and claudeCodePath are left
undefined). -/
def defaultGlobalConfig : GlobalConfig :=
  { defaultMode := DEFAULT_CONFIG.mode
    editor := Option.none
    claudeCodePath := Option.none
    includeSecurityChecklist := some DEFAULT_CONFIG.includeSecurityChecklist
    includeStandards := some DEFAULT_CONFIG.includeStandards }

/-- readGlobalConfig from src/core/config-manager.ts: absent file yields
the defaults as a success; a file that fails parse or validation yields a
failure result. -/
def readGlobalConfig (fs : FS) : Result GlobalConfig :=
  match fs.globalFile with
  | Option.none => Result.ok defaultGlobalConfig
  | some FileContent.corrupt => Result.err "Failed to read config"
  | some (FileContent.parsed g) => Result.ok g

/-- readProjectConfig from src/core/config-manager.ts: absent file yields
success with null payload; present-but-invalid file yields failure. -/
def readProjectConfig (fs : FS) : Result (Option ProjectConfig) :=
  match fs.projectFile with
  | Option.none => Result.ok Option.none
  | some FileContent.corrupt => Result.err "Failed to read config"
  | some (FileContent.parsed pc) => Result.ok (some pc)

/-- writeProjectConfig from src/core/config-manager.ts on an
already-typed config (schema validation of a well-typed value succeeds;
the raw untyped path is modelled separately below).  writeOk says whether
the underlying file write succeeds; on success the file holds the new
value and its mtime is the current clock. -/
def writeProjectConfig (writeOk : Bool) (config : ProjectConfig) (fs : FS) :
    Result Unit × FS :=
  if writeOk then
    (Result.ok (),
      { fs with projectFile := some (FileContent.parsed config)
                projectMtime := fs.clock
                clock := fs.clock + 1 })
  else (Result.err "Failed to write config", fs)

/-- loadConfig from src/core/config-manager.ts: read global, read
project, merge. -/
def loadConfig (fs : FS) : Result MergedConfig :=
  match readGlobalConfig fs with
  | Result.err e => Result.err e
  | Result.ok g =>
    match readProjectConfig fs with
    | Result.err e => Result.err e
    | Result.ok p => Result.ok (mergeConfigs g p)

/-- Modelled from the spec: getClaudeMdPath lives in prompt-builder.ts,
which is not among the available source files; section 6 of the spec
places the derived document at project-root/CLAUDE.md. -/
def getClaudeMdPath (root : String) : String :=
  root ++ "/CLAUDE.md"

/-- Modelled from the spec: buildClaudeMd (prompt-builder.ts) is not
among the available source files.  Per section 6 it fully overwrites the
derived document and returns the written path on success, or a failure
message.  buildOk says whether the build succeeds; a successful build
stamps the document with the current clock. -/
def buildClaudeMd (buildOk : Bool) (_config : MergedConfig) (root : String)
    (fs : FS) : Result String × FS :=
  if buildOk then
    (Result.ok (getClaudeMdPath root),
      { fs with claudeMdMtime := some fs.clock, clock := fs.clock + 1 })
  else (Result.err "Failed to build CLAUDE.md", fs)

/-- Success payload of switchMode in src/core/mode-manager.ts. -/
structure SwitchData where
  previousMode : Mode
  newMode : Mode
  claudeMdPath : String
deriving DecidableEq, Repr

/-- The updated project config record built inside switchMode
(mode-manager): spread of the existing raw project config, or the empty
object if none existed, with the mode field overwritten. -/
def switchModeUpdatedConfig (existing : Option ProjectConfig)
    (newMode : Mode) : ProjectConfig :=
  { existing.getD ProjectConfig.empty with mode := some newMode }

/-- switchMode from src/core/mode-manager.ts: check initialization, load
merged config to capture the previous mode, read the raw project config,
write it back with the mode overwritten, reload the merged config, and
regenerate CLAUDE.md.  Every failure short-circuits. -/
def switchMode (writeOk buildOk : Bool) (root : String) (newMode : Mode)
    (fs : FS) : Result SwitchData × FS :=
  if isProjectInitialized fs then
    match loadConfig fs with
    | Result.err e => (Result.err e, fs)
    | Result.ok cfg =>
      match readProjectConfig fs with
      | Result.err e => (Result.err e, fs)
      | Result.ok raw =>
        match writeProjectConfig writeOk (switchModeUpdatedConfig raw newMode) fs with
        | (Result.err e, fs1) => (Result.err e, fs1)
        | (Result.ok _, fs1) =>
          match loadConfig fs1 with
          | Result.err e => (Result.err e, fs1)
          | Result.ok newCfg =>
            match buildClaudeMd buildOk newCfg root fs1 with
            | (Result.err e, fs2) => (Result.err e, fs2)
            | (Result.ok path, fs2) =>
              (Result.ok { previousMode := cfg.mode, newMode := newMode,
                           claudeMdPath := path }, fs2)
  else (Result.err "Project not initialized. Run vibe init first.", fs)

/-- The updated project config record built inside updateMode
(config-manager): spread of the existing config, or the empty object,
with the mode field overwritten.  Implemented independently of the
switchMode copy. -/
def updateModeConfig (existing : Option ProjectConfig) (mode : Mode) :
    ProjectConfig :=
  { existing.getD ProjectConfig.empty with mode := some mode }

/-- updateMode from src/core/config-manager.ts: read the existing project
config, overwrite the mode field, write back. -/
def updateMode (writeOk : Bool) (mode : Mode) (fs : FS) :
    Result Unit × FS :=
  match readProjectConfig fs with
  | Result.err e => (Result.err e, fs)
  | Result.ok existing =>
      writeProjectConfig writeOk (updateModeConfig existing mode) fs

/-- Claim C2: on an initialized project whose project config reads
successfully (and whose global config does not abort the load), a
successful switchMode write persists exactly the previously stored
config with only the mode field replaced; every other field is preserved
verbatim, whatever the outcome of the later regeneration step. -/
theorem switchMode_preserves_other_fields (buildOk : Bool) (root : String)
    (m : Mode) (fs : FS) (pc : ProjectConfig)
    (hp : fs.projectFile = some (FileContent.parsed pc))
    (hg : fs.globalFile ≠ some FileContent.corrupt) :
    ((switchMode true buildOk root m fs).2).projectFile
      = some (FileContent.parsed
          { mode := some m
            projectName := pc.projectName
            template := pc.template
            customPrompts := pc.customPrompts
            includeSecurityChecklist := pc.includeSecurityChecklist
            includeStandards := pc.includeStandards }) := by
  obtain ⟨ck, pf, pm, gf, cm⟩ := fs
  simp only at hp hg
  subst hp
  cases gf with
  | none =>
    cases buildOk <;>
      simp [switchMode, isProjectInitialized, loadConfig, readGlobalConfig,
        readProjectConfig, writeProjectConfig, buildClaudeMd,
        switchModeUpdatedConfig, ProjectConfig.empty]
  | some c =>
    cases c with
    | corrupt => exact absurd rfl hg
    | parsed g =>
      cases buildOk <;>
        simp [switchMode, isProjectInitialized, loadConfig, readGlobalConfig,
          readProjectConfig, writeProjectConfig, buildClaudeMd,
          switchModeUpdatedConfig, ProjectConfig.empty]

/-- Witness for C2: switching a concrete stored config from learning to
guided keeps projectName foo and customPrompts x verbatim. -/
theorem switchMode_preserves_other_fields_witness :
    ((switchMode true true "r"
        Mode.guided
        { clock := 10
          projectFile := some (FileContent.parsed
            { mode := some Mode.learning
              projectName := some "foo"
              template := Option.none
              customPrompts := some ["x"]
              includeSecurityChecklist := Option.none
              includeStandards := Option.none })
          projectMtime := 3
          globalFile := Option.none
          claudeMdMtime := some 5 }).2).projectFile
      = some (FileContent.parsed
          { mode := some Mode.guided
            projectName := some "foo"
            template := Option.none
            customPrompts := some ["x"]
            includeSecurityChecklist := Option.none
            includeStandards := Option.none }) :=
  switchMode_preserves_other_fields true "r" Mode.guided _ _ rfl (by decide)

/-- Claim C3: on an uninitialized project root (project config file
absent), switchMode fails with the not-initialized error and leaves the
whole file-system state unchanged: no config write, no derived-document
generation. -/
theorem switchMode_uninitialized_no_effect (writeOk buildOk : Bool)
    (root : String) (m : Mode) (fs : FS)
    (h : fs.projectFile = Option.none) :
    (switchMode writeOk buildOk root m fs).1
        = Result.err "Project not initialized. Run vibe init first."
      ∧ (switchMode writeOk buildOk root m fs).2 = fs := by
  constructor <;> simp [switchMode, isProjectInitialized, h]

/-- Witness for C3 at a concrete uninitialized state. -/
theorem switchMode_uninitialized_no_effect_witness :
    (switchMode true true "r" Mode.expert
        { clock := 0, projectFile := Option.none, projectMtime := 0,
          globalFile := Option.none, claudeMdMtime := Option.none }).1
      = Result.err "Project not initialized. Run vibe init first." :=
  (switchMode_uninitialized_no_effect true true "r" Mode.expert _ rfl).1

/-- Claim C4: when the config write succeeds but the derived-document
regeneration fails, switchMode reports failure while the new mode is
already persisted in the project config file; there is no rollback. -/
theorem switchMode_build_failure_keeps_new_mode (root : String) (m : Mode)
    (fs : FS) (pc : ProjectConfig)
    (hp : fs.projectFile = some (FileContent.parsed pc))
    (hg : fs.globalFile ≠ some FileContent.corrupt) :
    (switchMode true false root m fs).1 = Result.err "Failed to build CLAUDE.md"
      ∧ ((switchMode true false root m fs).2).projectFile
          = some (FileContent.parsed (switchModeUpdatedConfig (some pc) m)) := by
  obtain ⟨ck, pf, pm, gf, cm⟩ := fs
  simp only at hp hg
  subst hp
  cases gf with
  | none =>
    constructor <;>
      simp [switchMode, isProjectInitialized, loadConfig, readGlobalConfig,
        readProjectConfig, writeProjectConfig, buildClaudeMd]
  | some c =>
    cases c with
    | corrupt => exact absurd rfl hg
    | parsed g =>
      constructor <;>
        simp [switchMode, isProjectInitialized, loadConfig, readGlobalConfig,
          readProjectConfig, writeProjectConfig, buildClaudeMd]

/-- Witness for C4 at a concrete state: the failure result together with
the persisted new mode. -/
theorem switchMode_build_failure_keeps_new_mode_witness :
    (switchMode true false "r" Mode.expert
        { clock := 4
          projectFile := some (FileContent.parsed
            { ProjectConfig.empty with mode := some Mode.guided })
          projectMtime := 1
          globalFile := Option.none
          claudeMdMtime := some 2 }).1
      = Result.err "Failed to build CLAUDE.md"
    ∧ ((switchMode true false "r" Mode.expert
        { clock := 4
          projectFile := some (FileContent.parsed
            { ProjectConfig.empty with mode := some Mode.guided })
          projectMtime := 1
          globalFile := Option.none
          claudeMdMtime := some 2 }).2).projectFile
      = some (FileContent.parsed
          (switchModeUpdatedConfig
            (some { ProjectConfig.empty with mode := some Mode.guided })
            Mode.expert)) :=
  switchMode_build_failure_keeps_new_mode "r" Mode.expert _ _ rfl (by decide)

/-- Claim C6: when the currently effective mode already equals the
requested mode, switchMode still succeeds, reports previousMode equal to
newMode, and still regenerates the derived document: its timestamp
strictly advances past any prior timestamp (well-formed states stamp
files before the current clock). -/
theorem switchMode_same_mode_still_regenerates (root : String) (m : Mode)
    (fs : FS) (pc : ProjectConfig) (cfg : MergedConfig)
    (hp : fs.projectFile = some (FileContent.parsed pc))
    (hload : loadConfig fs = Result.ok cfg)
    (hm : cfg.mode = m)
    (hwf : ∀ t, fs.claudeMdMtime = some t → t < fs.clock) :
    ∃ d, (switchMode true true root m fs).1 = Result.ok d
      ∧ d.previousMode = m
      ∧ d.newMode = m
      ∧ ∃ t, ((switchMode true true root m fs).2).claudeMdMtime = some t
          ∧ ∀ t0, fs.claudeMdMtime = some t0 → t0 < t := by
  obtain ⟨ck, pf, pm, gf, cm⟩ := fs
  simp only at hp hwf hload
  subst hp
  cases gf with
  | none =>
    have hcfg : mergeConfigs defaultGlobalConfig (some pc) = cfg := by
      simpa [loadConfig, readGlobalConfig, readProjectConfig] using hload
    refine ⟨{ previousMode := (mergeConfigs defaultGlobalConfig (some pc)).mode,
              newMode := m, claudeMdPath := getClaudeMdPath root },
            ?_, ?_, rfl, ck + 1, ?_, ?_⟩
    · simp [switchMode, isProjectInitialized, loadConfig, readGlobalConfig,
        readProjectConfig, writeProjectConfig, buildClaudeMd]
    · simpa using hcfg ▸ hm
    · simp [switchMode, isProjectInitialized, loadConfig, readGlobalConfig,
        readProjectConfig, writeProjectConfig, buildClaudeMd]
    · intro t0 h0
      exact Nat.lt_succ_of_lt (hwf t0 h0)
  | some c =>
    cases c with
    | corrupt => simp [loadConfig, readGlobalConfig] at hload
    | parsed g =>
      have hcfg : mergeConfigs g (some pc) = cfg := by
        simpa [loadConfig, readGlobalConfig, readProjectConfig] using hload
      refine ⟨{ previousMode := (mergeConfigs g (some pc)).mode,
                newMode := m, claudeMdPath := getClaudeMdPath root },
              ?_, ?_, rfl, ck + 1, ?_, ?_⟩
      · simp [switchMode, isProjectInitialized, loadConfig, readGlobalConfig,
          readProjectConfig, writeProjectConfig, buildClaudeMd]
      · simpa using hcfg ▸ hm
      · simp [switchMode, isProjectInitialized, loadConfig, readGlobalConfig,
          readProjectConfig, writeProjectConfig, buildClaudeMd]
      · intro t0 h0
        exact Nat.lt_succ_of_lt (hwf t0 h0)

/-- Witness for C6: switching to expert when the effective mode is
already expert, on a concrete state. -/
theorem switchMode_same_mode_still_regenerates_witness :
    ∃ d, (switchMode true true "r" Mode.expert
        { clock := 9
          projectFile := some (FileContent.parsed
            { ProjectConfig.empty with mode := some Mode.expert })
          projectMtime := 2
          globalFile := Option.none
          claudeMdMtime := some 3 }).1 = Result.ok d
      ∧ d.previousMode = Mode.expert
      ∧ d.newMode = Mode.expert
      ∧ ∃ t, ((switchMode true true "r" Mode.expert
          { clock := 9
            projectFile := some (FileContent.parsed
              { ProjectConfig.empty with mode := some Mode.expert })
            projectMtime := 2
            globalFile := Option.none
            claudeMdMtime := some 3 }).2).claudeMdMtime = some t
          ∧ ∀ t0,
              ({ clock := 9
                 projectFile := some (FileContent.parsed
                   { ProjectConfig.empty with mode := some Mode.expert })
                 projectMtime := 2
                 globalFile := Option.none
                 claudeMdMtime := some 3 } : FS).claudeMdMtime = some t0 →
                t0 < t :=
  switchMode_same_mode_still_regenerates "r" Mode.expert _ _
    (mergeConfigs defaultGlobalConfig
      (some { ProjectConfig.empty with mode := some Mode.expert }))
    rfl rfl rfl (by decide)

/-- Claim C9: the record persisted by updateMode in config-manager is
exactly the record persisted by the read-spread-write step of switchMode
in mode-manager: the existing record (empty if none was stored) with
only the mode field set; and on the same starting state with a
successful write the two paths leave the project config file with
identical contents. -/
theorem updateMode_matches_switchMode_update (m : Mode) :
    (∀ existing, updateModeConfig existing m = switchModeUpdatedConfig existing m)
  ∧ ∀ (buildOk : Bool) (root : String) (fs : FS) (pc : ProjectConfig),
      fs.projectFile = some (FileContent.parsed pc) →
      fs.globalFile ≠ some FileContent.corrupt →
      ((updateMode true m fs).2).projectFile
        = ((switchMode true buildOk root m fs).2).projectFile := by
  refine ⟨fun _ => rfl, ?_⟩
  intro buildOk root fs pc hp hg
  obtain ⟨ck, pf, pm, gf, cm⟩ := fs
  simp only at hp hg
  subst hp
  cases gf with
  | none =>
    cases buildOk <;>
      simp [updateMode, switchMode, isProjectInitialized, loadConfig,
        readGlobalConfig, readProjectConfig, writeProjectConfig, buildClaudeMd,
        updateModeConfig, switchModeUpdatedConfig]
  | some c =>
    cases c with
    | corrupt => exact absurd rfl hg
    | parsed g =>
      cases buildOk <;>
        simp [updateMode, switchMode, isProjectInitialized, loadConfig,
          readGlobalConfig, readProjectConfig, writeProjectConfig, buildClaudeMd,
          updateModeConfig, switchModeUpdatedConfig]

/-- Witness for C9 at a concrete state. -/
theorem updateMode_matches_switchMode_update_witness :
    ((updateMode true Mode.learning
        { clock := 7
          projectFile := some (FileContent.parsed
            { ProjectConfig.empty with projectName := some "foo" })
          projectMtime := 1
          globalFile := Option.none
          claudeMdMtime := Option.none }).2).projectFile
      = ((switchMode true true "r" Mode.learning
        { clock := 7
          projectFile := some (FileContent.parsed
            { ProjectConfig.empty with projectName := some "foo" })
          projectMtime := 1
          globalFile := Option.none
          claudeMdMtime := Option.none }).2).projectFile :=
  (updateMode_matches_switchMode_update Mode.learning).2 true "r" _ _ rfl
    (by decide)

/-- needsRegeneration from src/commands/start.ts, over the outcomes of
the two stat calls: a stat outcome is some mtime when the file could be
stat-ed and none when stat threw (absent file or permission error).  The
code returns the strict comparison when both stats succeed and true when
either throws. -/
def needsRegeneration (configStat claudeMdStat : Option Nat) : Bool :=
  match configStat, claudeMdStat with
  | some configMtime, some claudeMdMtime => decide (claudeMdMtime < configMtime)
  | _, _ => true

/-- Stat outcome of the project config file in a given state. -/
def statProjectConfig (fs : FS) : Option Nat :=
  if fs.projectFile.isSome then some fs.projectMtime else Option.none

/-- needsRegeneration applied to a file-system state. -/
def needsRegenerationFS (fs : FS) : Bool :=
  needsRegeneration (statProjectConfig fs) fs.claudeMdMtime

/-- Claim C7: needsRegeneration is true when the derived document cannot
be stat-ed (in particular when it does not exist), true when the config
mtime is strictly after the documents, false when the document mtime is
strictly after the configs, and true when the config file cannot be
stat-ed. -/
theorem needsRegeneration_spec (c d : Option Nat) :
    (d = Option.none → needsRegeneration c d = true)
  ∧ (∀ tc td, c = some tc → d = some td → td < tc →
      needsRegeneration c d = true)
  ∧ (∀ tc td, c = some tc → d = some td → tc < td →
      needsRegeneration c d = false)
  ∧ (c = Option.none → needsRegeneration c d = true) := by
  refine ⟨?_, ?_, ?_, ?_⟩
  · rintro rfl
    cases c <;> simp [needsRegeneration]
  · rintro tc td rfl rfl h
    simpa [needsRegeneration] using h
  · rintro tc td rfl rfl h
    simp [needsRegeneration]
    omega
  · rintro rfl
    cases d <;> simp [needsRegeneration]

/-- Witness for C7 at concrete timestamps. -/
theorem needsRegeneration_spec_witness :
    needsRegeneration (some 5) (some 3) = true
  ∧ needsRegeneration (some 3) (some 5) = false
  ∧ needsRegeneration (some 3) Option.none = true :=
  ⟨(needsRegeneration_spec (some 5) (some 3)).2.1 5 3 rfl rfl (by decide),
   (needsRegeneration_spec (some 3) (some 5)).2.2.1 3 5 rfl rfl (by decide),
   (needsRegeneration_spec (some 3) Option.none).1 rfl⟩

/-- ExitCode constants from src/types/index.ts. -/
def ExitCode.SUCCESS : Nat := 0

/-- General error exit code from src/types/index.ts. -/
def ExitCode.GENERAL_ERROR : Nat := 1

/-- Invalid argument exit code from src/types/index.ts. -/
def ExitCode.INVALID_ARGUMENT : Nat := 2

/-- Config error exit code from src/types/index.ts. -/
def ExitCode.CONFIG_ERROR : Nat := 3

/-- Not found exit code from src/types/index.ts. -/
def ExitCode.NOT_FOUND : Nat := 4

/-- Permission denied exit code from src/types/index.ts. -/
def ExitCode.PERMISSION_DENIED : Nat := 5

/-- StartOptions from src/commands/start.ts. -/
structure StartOptions where
  mode : Option Mode
  claudePath : Option String
  regenerate : Option Bool
deriving DecidableEq, Repr

/-- Tail of startCommand: launch Claude Code and exit with its exit code,
or with GENERAL_ERROR when the launch fails.  The launch outcome of the
external binary is a parameter. -/
def startLaunch (launch : Result Nat) (fs : FS) : Nat × FS :=
  match launch with
  | Result.err _ => (ExitCode.GENERAL_ERROR, fs)
  | Result.ok code => (code, fs)

/-- Middle of startCommand after the optional mode switch: load config
(exit CONFIG_ERROR on failure), regenerate CLAUDE.md when forced or
stale (exit GENERAL_ERROR on build failure), then launch. -/
def startAfterSwitch (buildOk : Bool) (launch : Result Nat)
    (opts : StartOptions) (root : String) (fs : FS) : Nat × FS :=
  match loadConfig fs with
  | Result.err _ => (ExitCode.CONFIG_ERROR, fs)
  | Result.ok cfg =>
    if opts.regenerate == some true || needsRegenerationFS fs then
      match buildClaudeMd buildOk cfg root fs with
      | (Result.err _, fs1) => (ExitCode.GENERAL_ERROR, fs1)
      | (Result.ok _, fs1) => startLaunch launch fs1
    else startLaunch launch fs

/-- startCommand from src/commands/start.ts as an exit-code computation:
not-initialized exits CONFIG_ERROR; a failed mode switch exits
CONFIG_ERROR; then the load-regenerate-launch tail. -/
def startCommand (writeOk buildOk : Bool) (launch : Result Nat)
    (opts : StartOptions) (root : String) (fs : FS) : Nat × FS :=
  if isProjectInitialized fs then
    match opts.mode with
    | Option.none => startAfterSwitch buildOk launch opts root fs
    | some m =>
      match switchMode writeOk buildOk root m fs with
      | (Result.err _, fs1) => (ExitCode.CONFIG_ERROR, fs1)
      | (Result.ok _, fs1) => startAfterSwitch buildOk launch opts root fs1
  else (ExitCode.CONFIG_ERROR, fs)

/-- ModeSchema string validation from src/types/index.ts: exact,
case-sensitive membership in the three-value enum. -/
def parseModeString (s : String) : Option Mode :=
  if s = "learning" then some Mode.learning
  else if s = "guided" then some Mode.guided
  else if s = "expert" then some Mode.expert
  else Option.none

/-- validateModeOption from src/commands/start.ts: undefined passes
through, a valid mode string parses, and an invalid string exits the
process with INVALID_ARGUMENT (modelled as the error branch). -/
def validateModeOption (modeStr : Option String) : Except Nat (Option Mode) :=
  match modeStr with
  | Option.none => Except.ok Option.none
  | some s =>
    match parseModeString s with
    | some m => Except.ok (some m)
    | Option.none => Except.error ExitCode.INVALID_ARGUMENT

/-- Counterexample to C8: on an initialized project with a forced
regeneration that fails, startCommand exits with GENERAL_ERROR (1), not
with CONFIG_ERROR (3) as the claim requires for every non-argument
failure path. -/
theorem startCommand_regen_failure_exit_code :
    (startCommand true false (Result.ok 0)
        { mode := Option.none, claudePath := Option.none,
          regenerate := some true } "r"
        { clock := 5
          projectFile := some (FileContent.parsed ProjectConfig.empty)
          projectMtime := 1
          globalFile := Option.none
          claudeMdMtime := some 2 }).1 = ExitCode.GENERAL_ERROR
    ∧ ExitCode.GENERAL_ERROR ≠ ExitCode.CONFIG_ERROR := by
  constructor
  · rfl
  · decide

/-- Claim C8 (amended): not-initialized, config-read and mode-switch
failures in startCommand exit with CONFIG_ERROR (3) and a malformed mode
argument exits with INVALID_ARGUMENT (2), but a derived-document
regeneration failure in startCommand exits with GENERAL_ERROR (1). -/
theorem startCommand_exit_codes (writeOk buildOk : Bool)
    (launch : Result Nat) (opts : StartOptions) (root : String) (fs : FS) :
    (fs.projectFile = Option.none →
      (startCommand writeOk buildOk launch opts root fs).1
        = ExitCode.CONFIG_ERROR)
  ∧ (∀ m e fs1, isProjectInitialized fs = true → opts.mode = some m →
      switchMode writeOk buildOk root m fs = (Result.err e, fs1) →
      (startCommand writeOk buildOk launch opts root fs).1
        = ExitCode.CONFIG_ERROR)
  ∧ (∀ e, isProjectInitialized fs = true → opts.mode = Option.none →
      loadConfig fs = Result.err e →
      (startCommand writeOk buildOk launch opts root fs).1
        = ExitCode.CONFIG_ERROR)
  ∧ (∀ cfg, isProjectInitialized fs = true → opts.mode = Option.none →
      loadConfig fs = Result.ok cfg → buildOk = false →
      (opts.regenerate = some true ∨ needsRegenerationFS fs = true) →
      (startCommand writeOk buildOk launch opts root fs).1
        = ExitCode.GENERAL_ERROR)
  ∧ (∀ s, parseModeString s = Option.none →
      validateModeOption (some s) = Except.error ExitCode.INVALID_ARGUMENT) := by
  refine ⟨?_, ?_, ?_, ?_, ?_⟩
  · intro h
    simp [startCommand, isProjectInitialized, h]
  · intro m e fs1 hinit hm hsw
    simp [startCommand, hinit, hm, hsw]
  · intro e hinit hm hload
    simp [startCommand, startAfterSwitch, hinit, hm, hload]
  · intro cfg hinit hm hload hbuild hregen
    subst hbuild
    rcases hregen with h | h <;>
      simp [startCommand, startAfterSwitch, hinit, hm, hload, h, buildClaudeMd]
  · intro s hs
    simp [validateModeOption, hs]

/-- Witness for the amended C8 at concrete inputs: an uninitialized state
exits CONFIG_ERROR and a malformed mode string is rejected with
INVALID_ARGUMENT. -/
theorem startCommand_exit_codes_witness :
    (startCommand true true (Result.ok 0)
        { mode := Option.none, claudePath := Option.none,
          regenerate := Option.none } "r"
        { clock := 0, projectFile := Option.none, projectMtime := 0,
          globalFile := Option.none, claudeMdMtime := Option.none }).1
      = ExitCode.CONFIG_ERROR
    ∧ validateModeOption (some "Learning")
      = Except.error ExitCode.INVALID_ARGUMENT :=
  ⟨(startCommand_exit_codes true true (Result.ok 0)
      { mode := Option.none, claudePath := Option.none,
        regenerate := Option.none } "r"
      { clock := 0, projectFile := Option.none, projectMtime := 0,
        globalFile := Option.none, claudeMdMtime := Option.none }).1 rfl,
   (startCommand_exit_codes true true (Result.ok 0)
      { mode := Option.none, claudePath := Option.none,
        regenerate := Option.none } "r"
      { clock := 0, projectFile := Option.none, projectMtime := 0,
        globalFile := Option.none, claudeMdMtime := Option.none
        }).2.2.2.2 "Learning" (by decide)⟩

/-- ChecklistTypeSchema string validation from src/types/index.ts. -/
def parseChecklistTypeString (s : String) : Option ChecklistType :=
  if s = "pre" then some ChecklistType.pre
  else if s = "post" then some ChecklistType.post
  else if s = "owasp" then some ChecklistType.owasp
  else if s = "api" then some ChecklistType.api
  else if s = "full" then some ChecklistType.full
  else if s = "none" then some ChecklistType.none
  else Option.none

/-- StandardTypeSchema string validation from src/types/index.ts. -/
def parseStandardTypeString (s : String) : Option StandardType :=
  if s = "typescript" then some StandardType.typescript
  else if s = "api" then some StandardType.api
  else Option.none

/-- A runtime value handed to writeGlobalConfig before Zod validation:
enum-typed fields are raw strings. -/
structure RawGlobalConfig where
  defaultMode : Option String
  editor : Option String
  claudeCodePath : Option String
  includeSecurityChecklist : Option String
  includeStandards : Option (List String)
deriving DecidableEq, Repr

/-- GlobalConfigSchema.parse from src/types/index.ts: defaultMode
defaults to guided, includeSecurityChecklist to pre, includeStandards to
the singleton typescript list; any value outside the enums fails. -/
def GlobalConfigSchemaParse (raw : RawGlobalConfig) : Option GlobalConfig := do
  let dm ← match raw.defaultMode with
    | Option.none => some Mode.guided
    | some s => parseModeString s
  let sc ← match raw.includeSecurityChecklist with
    | Option.none => some ChecklistType.pre
    | some s => parseChecklistTypeString s
  let st ← match raw.includeStandards with
    | Option.none => some [StandardType.typescript]
    | some l => l.mapM parseStandardTypeString
  pure { defaultMode := dm
         editor := raw.editor
         claudeCodePath := raw.claudeCodePath
         includeSecurityChecklist := some sc
         includeStandards := some st }

/-- A runtime value handed to writeProjectConfig before Zod validation. -/
structure RawProjectConfig where
  mode : Option String
  projectName : Option String
  template : Option String
  customPrompts : Option (List String)
  includeSecurityChecklist : Option String
  includeStandards : Option (List String)
deriving DecidableEq, Repr

/-- ProjectConfigSchema.parse from src/types/index.ts: every field
optional, no defaults; enum values outside the closed sets fail. -/
def ProjectConfigSchemaParse (raw : RawProjectConfig) :
    Option ProjectConfig := do
  let m ← match raw.mode with
    | Option.none => some Option.none
    | some s => (parseModeString s).map some
  let sc ← match raw.includeSecurityChecklist with
    | Option.none => some Option.none
    | some s => (parseChecklistTypeString s).map some
  let st ← match raw.includeStandards with
    | Option.none => some Option.none
    | some l => (l.mapM parseStandardTypeString).map some
  pure { mode := m
         projectName := raw.projectName
         template := raw.template
         customPrompts := raw.customPrompts
         includeSecurityChecklist := sc
         includeStandards := st }

/-- writeGlobalConfig from src/core/config-manager.ts on a runtime value:
GlobalConfigSchema.parse runs first and THROWS on schema violation (the
call is outside any try block), so an invalid value escapes as an
exception and nothing is written; a valid value is serialized, with the
write outcome reported as a Result. -/
def writeGlobalConfig (writeOk : Bool) (raw : RawGlobalConfig) (fs : FS) :
    Exc (Result Unit) × FS :=
  match GlobalConfigSchemaParse raw with
  | Option.none => (Exc.thrown, fs)
  | some validated =>
    if writeOk then
      (Exc.normal (Result.ok ()),
        { fs with globalFile := some (FileContent.parsed validated) })
    else (Exc.normal (Result.err "Failed to write config"), fs)

/-- writeProjectConfig from src/core/config-manager.ts on a runtime
value: ProjectConfigSchema.parse runs first and THROWS on schema
violation; a valid value goes through the typed write. -/
def writeProjectConfigRaw (writeOk : Bool) (raw : RawProjectConfig)
    (fs : FS) : Exc (Result Unit) × FS :=
  match ProjectConfigSchemaParse raw with
  | Option.none => (Exc.thrown, fs)
  | some validated =>
    let out := writeProjectConfig writeOk validated fs
    (Exc.normal out.1, out.2)

/-- Counterexample to C5: a schema-invalid global config (defaultMode
turbo) makes writeGlobalConfig throw the validation error across the
module boundary instead of returning a failure Result; the file is not
written, but the claimed result-value surfacing is false. -/
theorem writeGlobalConfig_invalid_throws :
    (writeGlobalConfig true
        { defaultMode := some "turbo", editor := Option.none,
          claudeCodePath := Option.none,
          includeSecurityChecklist := Option.none,
          includeStandards := Option.none }
        { clock := 0, projectFile := Option.none, projectMtime := 0,
          globalFile := Option.none, claudeMdMtime := Option.none })
      = (Exc.thrown,
        { clock := 0, projectFile := Option.none, projectMtime := 0,
          globalFile := Option.none, claudeMdMtime := Option.none }) := by
  decide

/-- Claim C5 (amended): a schema-invalid config is rejected by both write
functions before serializing and no file is written (the state is
untouched), but the rejection surfaces as a thrown schema-validation
exception escaping the function, not as a failure Result value at the
call site. -/
theorem writeConfig_invalid_rejected_before_write (writeOk : Bool) (fs : FS) :
    (∀ raw : RawGlobalConfig, GlobalConfigSchemaParse raw = Option.none →
      writeGlobalConfig writeOk raw fs = (Exc.thrown, fs))
  ∧ (∀ raw : RawProjectConfig, ProjectConfigSchemaParse raw = Option.none →
      writeProjectConfigRaw writeOk raw fs = (Exc.thrown, fs)) := by
  constructor
  · intro raw h
    simp [writeGlobalConfig, h]
  · intro raw h
    simp [writeProjectConfigRaw, h]

/-- Witness for the amended C5 at a concrete invalid project config. -/
theorem writeConfig_invalid_rejected_before_write_witness :
    writeProjectConfigRaw true
        { mode := some "LEARNING", projectName := Option.none,
          template := Option.none, customPrompts := Option.none,
          includeSecurityChecklist := Option.none,
          includeStandards := Option.none }
        { clock := 3, projectFile := Option.none, projectMtime := 0,
          globalFile := Option.none, claudeMdMtime := Option.none }
      = (Exc.thrown,
        { clock := 3, projectFile := Option.none, projectMtime := 0,
          globalFile := Option.none, claudeMdMtime := Option.none }) :=
  (writeConfig_invalid_rejected_before_write true _).2 _ (by decide)

/-- Parsed semantic version triple from src/core/claude-integration.ts. -/
structure Version where
  major : Nat
  minor : Nat
  patch : Nat
deriving DecidableEq, Repr

/-- Decimal value of a digit run (parseInt base 10 on the matched
group). -/
def digitsToNat (ds : List Char) : Nat :=
  ds.foldl (fun n c => 10 * n + (c.toNat - 48)) 0

/-- Maximal leading digit run, failing when empty: the regex group
backslash-d-plus of parseVersion. -/
def takeNumber (cs : List Char) : Option (Nat × List Char) :=
  let ds := cs.takeWhile Char.isDigit
  if ds.isEmpty then Option.none
  else some (digitsToNat ds, cs.dropWhile Char.isDigit)

/-- parseVersion from src/core/claude-integration.ts: anchored regex of
an optional v prefix and three dot-separated digit groups; trailing text
is ignored because the regex is not anchored at the end. -/
def parseVersion (s : String) : Option Version := do
  let cs := s.data
  let cs := match cs with
    | 'v' :: rest => rest
    | _ => cs
  let (major, cs) ← takeNumber cs
  let cs ← match cs with
    | '.' :: rest => some rest
    | _ => Option.none
  let (minor, cs) ← takeNumber cs
  let cs ← match cs with
    | '.' :: rest => some rest
    | _ => Option.none
  let (patch, _) ← takeNumber cs
  pure { major := major, minor := minor, patch := patch }

/-- compareVersions from src/core/claude-integration.ts: 0 when either
side fails to parse, otherwise the sign of the componentwise
lexicographic comparison. -/
def compareVersions (a b : String) : Int :=
  match parseVersion a, parseVersion b with
  | some vA, some vB =>
    if vA.major ≠ vB.major then (if vA.major > vB.major then 1 else -1)
    else if vA.minor ≠ vB.minor then (if vA.minor > vB.minor then 1 else -1)
    else if vA.patch ≠ vB.patch then (if vA.patch > vB.patch then 1 else -1)
    else 0
  | _, _ => 0

/-- Claim C10: an unparseable version string compares as equal to
anything (result 0), and on parseable inputs compareVersions returns -1,
0 or 1 according to the lexicographic order on (major, minor, patch). -/
theorem compareVersions_lexicographic (a b : String) :
    ((parseVersion a = Option.none ∨ parseVersion b = Option.none) →
      compareVersions a b = 0)
  ∧ (∀ vA vB, parseVersion a = some vA → parseVersion b = some vB →
      (compareVersions a b = -1 ↔
        toLex ((vA.major, toLex ((vA.minor, vA.patch) : Nat × Nat)) :
            Nat × (Nat ×ₗ Nat))
          < toLex ((vB.major, toLex ((vB.minor, vB.patch) : Nat × Nat)) :
            Nat × (Nat ×ₗ Nat)))
      ∧ (compareVersions a b = 1 ↔
        toLex ((vB.major, toLex ((vB.minor, vB.patch) : Nat × Nat)) :
            Nat × (Nat ×ₗ Nat))
          < toLex ((vA.major, toLex ((vA.minor, vA.patch) : Nat × Nat)) :
            Nat × (Nat ×ₗ Nat)))
      ∧ (compareVersions a b = 0 ↔ vA = vB)) := by
  constructor
  · intro h
    rcases h with h | h
    · simp [compareVersions, h]
    · cases hA : parseVersion a <;> simp [compareVersions, hA, h]
  · intro vA vB hA hB
    obtain ⟨a1, a2, a3⟩ := vA
    obtain ⟨b1, b2, b3⟩ := vB
    simp only [compareVersions, hA, hB]
    refine ⟨?_, ?_, ?_⟩
    · simp only [Prod.Lex.lt_iff]
      split_ifs <;> simp_all <;> omega
    · simp only [Prod.Lex.lt_iff]
      split_ifs <;> simp_all <;> omega
    · simp only [Version.mk.injEq]
      split_ifs <;> simp_all

/-- Witness for C10: an unparseable input compares equal and a concrete
greater version compares as 1. -/
theorem compareVersions_lexicographic_witness :
    compareVersions "banana" "1.2.3" = 0
  ∧ compareVersions "v2.0.0" "1.9.9" = 1 := by
  constructor
  · exact (compareVersions_lexicographic "banana" "1.2.3").1 (Or.inl rfl)
  · refine ((compareVersions_lexicographic "v2.0.0" "1.9.9").2
      ⟨2, 0, 0⟩ ⟨1, 9, 9⟩ rfl rfl).2.1.mpr ?_
    exact (Prod.Lex.lt_iff _ _).mpr (Or.inl (by decide))
